import Mathlib

/-!
Verification of the `vlabs` cluster-description validation engine
(package `vlabs` of the acs-engine repository).

The repository material at hand consists of the package's test suite
(`validate_test.go`); the implementation file itself is not present.
Following the spec ("PURPOSE & SCOPE", "COMPONENT DESIGN"), every
validator below is modelled from the spec's description of the
corresponding component, and wherever the in-repository tests pin a
concrete behaviour the model follows the tests, since the tests are
repository code.

Machine integers do not occur: all arithmetic is on `Nat` (IPv4
addresses as numbers below 2^32, durations in nanoseconds).
Errors are modelled as `Option String`: `none` is success, `some msg`
carries the message of the first failing rule, matching the spec's
"only the first failure is surfaced" contract.
-/

set_option maxRecDepth 100000

namespace Vlabs

/-! ## Primitive parsers (spec section 4.2, "Primitive Validators") -/

/-- Splits a character list at every occurrence of `sep`; the separator
characters themselves are dropped.  Used to model the `/`- and
`.`-splitting done by the Go standard-library parsers. -/
def splitOnChar (sep : Char) : List Char → List (List Char)
  | [] => [[]]
  | c :: cs =>
    let r := splitOnChar sep cs
    if c = sep then [] :: r
    else
      match r with
      | h :: t => (c :: h) :: t
      | [] => [[c]]

/-- Numeric value of a list of decimal digit characters. -/
def natOfDigits (cs : List Char) : Nat :=
  cs.foldl (fun acc c => acc * 10 + (c.toNat - 48)) 0

/-- Parses a nonempty all-decimal-digit token; anything else is `none`. -/
def parseDecimal (cs : List Char) : Option Nat :=
  if cs.isEmpty then none
  else if cs.all Char.isDigit then some (natOfDigits cs) else none

/-- Modelled from the spec: "CIDR syntax: standard
dotted-quad-with-prefix-length parse" consumed through the standard
library's IP parser (absent from the sources at hand).  An IPv4 address
is four dot-separated decimal octets, each at most 255; the result is
the address as a number below 2^32. -/
def parseIPv4 (s : String) : Option Nat :=
  match (splitOnChar '.' s.data).mapM parseDecimal with
  | some [a, b, c, d] =>
    if a ≤ 255 && b ≤ 255 && c ≤ 255 && d ≤ 255 then
      some (((a * 256 + b) * 256 + c) * 256 + d)
    else none
  | _ => none

/-- Modelled from the spec: CIDR parse.  `addr/len` with `addr` a valid
IPv4 address and `len ≤ 32`; the result is the masked network address
paired with the number of host bits, mirroring the standard parser's
masking of the host part. -/
def parseCIDR (s : String) : Option (Nat × Nat) :=
  match splitOnChar '/' s.data with
  | [ipPart, lenPart] =>
    match parseIPv4 (String.mk ipPart), parseDecimal lenPart with
    | some ip, some len =>
      if len ≤ 32 then
        let hostBits := 32 - len
        some (ip - ip % 2 ^ hostBits, hostBits)
      else none
    | _, _ => none
  | _ => none

/-- Nanosecond weight of a duration unit token, together with the
characters following it.  `ms` is distinguished from `m` by one
character of lookahead, as in the compact duration grammar. -/
def durationUnit : List Char → Option (Nat × List Char)
  | 'h' :: rest => some (3600000000000, rest)
  | 'm' :: 's' :: rest => some (1000000, rest)
  | 'm' :: rest => some (60000000000, rest)
  | 's' :: rest => some (1000000000, rest)
  | 'u' :: 's' :: rest => some (1000, rest)
  | 'n' :: 's' :: rest => some (1, rest)
  | _ => none

/-- Fuelled worker for `parseDuration`; every component consumes at
least one digit and one unit character, so the input length is enough
fuel. -/
def parseDurationAux : Nat → List Char → Option Nat
  | _, [] => some 0
  | 0, _ => none
  | fuel + 1, cs =>
    let digits := cs.takeWhile Char.isDigit
    let rest := cs.dropWhile Char.isDigit
    if digits.isEmpty then none
    else
      match durationUnit rest with
      | some (unit, rest2) =>
        (parseDurationAux fuel rest2).map fun n => natOfDigits digits * unit + n
      | none => none

/-- Modelled from the spec: "Duration syntax: validates strings in a
compact numeric-plus-unit duration grammar (e.g. `10s`, `5m0s`)".  One
or more `<decimal><unit>` components; the value is the total in
nanoseconds.  (Signs and fractional components of the full grammar are
not exercised by the repository and are not modelled.) -/
def parseDuration (s : String) : Option Nat :=
  if s.data.isEmpty then none else parseDurationAux s.data.length s.data

/-- Returns the first error of a list of rule results, or success when
every rule passed — the spec's "evaluated until the first failure". -/
def firstErr : List (Option String) → Option String
  | [] => none
  | some e :: _ => some e
  | none :: rest => firstErr rest

/-! ## Data model (spec section 3)

The orchestrator-specific configuration blocks are optional pointers in
the reference system; `Option` plays the role of the pointer, with
`some {}` a present-but-empty block and `none` an absent one. -/

structure KubernetesConfig where
  clusterSubnet : String := ""
  dockerBridgeSubnet : String := ""
  maxPods : Nat := 0
  dnsServiceIP : String := ""
  serviceCidr : String := ""
  networkPlugin : String := ""
  networkPolicy : String := ""
  containerRuntime : String := ""
  kubeletConfig : List (String × String) := []
  controllerManagerConfig : List (String × String) := []
  useCloudControllerManager : Option Bool := none
  cloudProviderBackoff : Bool := false
  cloudProviderRateLimit : Bool := false
deriving DecidableEq, BEq

structure DcosConfig where
  dcosBootstrapURL : String := ""
  dcosWindowsBootstrapURL : String := ""
deriving DecidableEq, BEq

structure OpenShiftConfig where
  clusterUsername : String := ""
  clusterPassword : String := ""
deriving DecidableEq, BEq

structure OrchestratorProfile where
  orchestratorType : String := ""
  orchestratorVersion : String := ""
  kubernetesConfig : Option KubernetesConfig := none
  dcosConfig : Option DcosConfig := none
  openShiftConfig : Option OpenShiftConfig := none
deriving DecidableEq, BEq

structure MasterProfile where
  count : Nat := 0
  dnsPrefix : String := ""
  vmSize : String := ""
  storageProfile : String := ""
deriving DecidableEq, BEq

structure AgentPoolProfile where
  name : String := ""
  count : Nat := 0
  vmSize : String := ""
  osType : String := ""
  storageProfile : String := ""
  availabilityProfile : String := ""
deriving DecidableEq, BEq

structure KeyvaultSecretRef where
  vaultID : String := ""
  secretName : String := ""
  secretVersion : String := ""
deriving DecidableEq, BEq

structure ServicePrincipalProfile where
  clientID : String := ""
  secret : String := ""
  keyvaultSecretRef : Option KeyvaultSecretRef := none
deriving DecidableEq, BEq

structure PublicKey where
  keyData : String := ""
deriving DecidableEq, BEq

structure LinuxProfile where
  adminUsername : String := ""
  publicKeys : List PublicKey := []
deriving DecidableEq, BEq

structure WindowsProfile where
  adminUsername : String := ""
  adminPassword : String := ""
deriving DecidableEq, BEq

structure AzProfile where
  location : String := ""
  resourceGroup : String := ""
  subscriptionID : String := ""
  tenantID : String := ""
deriving DecidableEq, BEq

structure Properties where
  orchestratorProfile : OrchestratorProfile := {}
  masterProfile : Option MasterProfile := none
  agentPoolProfiles : List AgentPoolProfile := []
  linuxProfile : Option LinuxProfile := none
  windowsProfile : Option WindowsProfile := none
  servicePrincipalProfile : Option ServicePrincipalProfile := none
  azProfile : Option AzProfile := none
deriving DecidableEq, BEq

/-! ## Version Gate (spec section 4.1) -/

/-- Modelled from the spec: the version-support catalog is an external
collaborator ("the version-support catalog ... is out of scope,
consumed only through its data contract"), absent from the sources at
hand.  Each entry is a version known to the orchestrator paired with
whether it is still offered for new clusters; deprecated patch
releases (such as Kubernetes 1.7.3, exercised by the repository's
tests) are known but no longer offered. -/
def kubernetesVersionCatalog : List (String × Bool) :=
  [("1.6.9", false), ("1.7.3", false), ("1.7.12", true),
   ("1.8.7", true), ("1.9.0", true), ("1.10.0", true)]

/-- The catalog's "list all supported versions" answer: the versions
offered for new clusters. -/
def getAllSupportedKubernetesVersions : List String :=
  (kubernetesVersionCatalog.filter (fun e => e.2)).map (fun e => e.1)

/-- Modelled from the spec: the OpenShift side of the version catalog;
`v1.0` is known to the orchestrator but not offered for new clusters
(the repository's tests accept it only in update mode). -/
def openShiftVersionCatalog : List (String × Bool) :=
  [("v1.0", false), ("3.9.0", true)]

/-- Modelled from the spec: the DCOS side of the version catalog. -/
def dcosVersionCatalog : List (String × Bool) :=
  [("1.8.8", true), ("1.9.0", true), ("1.10.0", true), ("1.11.0", true)]

/-- Drops one leading `v` from a version string, making `v1.9.0`
acceptable identically to `1.9.0` (spec section 8). -/
def stripLeadingV (s : String) : String :=
  match s.data with
  | 'v' :: rest => String.mk rest
  | _ => s

/-- Modelled from the spec (section 4.1): if no version is requested
the documented default is assumed valid; in normal mode the version
must be offered for new clusters; in update mode any version known to
the orchestrator is accepted. -/
def versionGate (catalog : List (String × Bool)) (v : String) (isUpdate : Bool) :
    Option String :=
  if v = "" then none
  else if isUpdate then
    if catalog.any (fun e => e.1 == v) then none
    else some ("the following OrchestratorProfile configuration is not supported: " ++ v)
  else
    if catalog.any (fun e => e.1 == v && e.2) then none
    else some ("the following OrchestratorProfile configuration is not supported: " ++ v)

/-! ## Kubernetes Configuration Validator (spec section 4.3) -/

/-- The documented minimum floor for `MaxPods` (constant
`KubernetesMinMaxPods` of the reference system). -/
def kubernetesMinMaxPods : Nat := 5

/-- Safety multiple between the controller-manager's node-monitor
grace period and the kubelet's node-status update frequency.  The
repository's tests ("10s"/"40s" passes, "10s"/"30s" fails) pin the
multiple at 4. -/
def minKubeletRetries : Nat := 4

/-- Rule for an optional CIDR-valued field: empty passes, otherwise
the value must parse as a CIDR. -/
def checkOptionalCIDR (field val : String) : Option String :=
  if val = "" then none
  else
    match parseCIDR val with
    | some _ => none
    | none => some (field ++ " '" ++ val ++ "' is an invalid subnet")

/-- Rule for an optional CIDR-valued passthrough flag. -/
def checkFlagCIDR (flags : List (String × String)) (key : String) : Option String :=
  match flags.lookup key with
  | some val =>
    match parseCIDR val with
    | some _ => none
    | none => some (key ++ " '" ++ val ++ "' is an invalid subnet")
  | none => none

/-- Rule for an optional duration-valued passthrough flag. -/
def checkFlagDuration (flags : List (String × String)) (key : String) : Option String :=
  match flags.lookup key with
  | some val =>
    match parseDuration val with
    | some _ => none
    | none => some (key ++ " '" ++ val ++ "' is not a valid duration")
  | none => none

/-- Cross-parameter timing invariant (spec section 4.3, rule 6): when
both flags are present and parse, the grace period must be at least
`minKubeletRetries` times the update frequency. -/
def checkGracePeriod (c : KubernetesConfig) : Option String :=
  match c.controllerManagerConfig.lookup "--node-monitor-grace-period",
        c.kubeletConfig.lookup "--node-status-update-frequency" with
  | some g, some f =>
    match parseDuration g, parseDuration f with
    | some dg, some df =>
      if dg < minKubeletRetries * df then
        some ("--node-monitor-grace-period must be at least the safety multiple of --node-status-update-frequency")
      else none
    | _, _ => none
  | _, _ => none

/-- DNS-service-IP placement rule (spec section 4.3, rule 9, and
section 4.2 "IP-in-CIDR-exclusive"): `DNSServiceIP` and `ServiceCidr`
are both-or-neither; when both are present each must parse, the IP
must be contained in the CIDR, and the boundary addresses are
rejected.  The repository's tests pin the excluded low boundary as the
first IP of the range (the network address plus one: `172.99.0.1`
rejected against `172.99.0.1/16`), alongside the broadcast address. -/
def checkDNSServiceIP (c : KubernetesConfig) : Option String :=
  if c.dnsServiceIP = "" ∧ c.serviceCidr = "" then none
  else if c.dnsServiceIP = "" then
    some "service cidr specified, but no dns service IP"
  else if c.serviceCidr = "" then
    some "dns service ip specified, but no service cidr"
  else
    match parseIPv4 c.dnsServiceIP with
    | none => some ("DNSServiceIP '" ++ c.dnsServiceIP ++ "' is an invalid IP address")
    | some ip =>
      match parseCIDR c.serviceCidr with
      | none => some ("ServiceCidr '" ++ c.serviceCidr ++ "' is an invalid CIDR subnet")
      | some (network, hostBits) =>
        let broadcast := network + 2 ^ hostBits - 1
        if ip < network ∨ broadcast < ip then
          some ("DNSServiceIP '" ++ c.dnsServiceIP ++ "' is not within the ServiceCidr '" ++ c.serviceCidr ++ "'")
        else if ip = broadcast then
          some ("DNSServiceIP '" ++ c.dnsServiceIP ++ "' cannot be the broadcast address of ServiceCidr '" ++ c.serviceCidr ++ "'")
        else if ip = network + 1 then
          some ("DNSServiceIP '" ++ c.dnsServiceIP ++ "' cannot be the first IP of ServiceCidr '" ++ c.serviceCidr ++ "'")
        else none

/-- Modelled from the spec (section 4.3, `KubernetesConfig.Validate`,
absent from the sources at hand): the rules run in the spec's order
and the first failure is surfaced.  The version argument of the
reference signature only feeds rule 10, which accepts every input, so
it is not a parameter of the model. -/
def kubernetesConfigValidate (c : KubernetesConfig) : Option String :=
  firstErr
    [ checkOptionalCIDR "ClusterSubnet" c.clusterSubnet
    , checkOptionalCIDR "DockerBridgeSubnet" c.dockerBridgeSubnet
    , if c.maxPods ≠ 0 ∧ c.maxPods < kubernetesMinMaxPods then
        some ("MaxPods needs to be at least " ++ toString kubernetesMinMaxPods)
      else none
    , checkFlagCIDR c.kubeletConfig "--non-masquerade-cidr"
    , checkFlagDuration c.kubeletConfig "--node-status-update-frequency"
    , checkFlagDuration c.controllerManagerConfig "--node-monitor-grace-period"
    , checkGracePeriod c
    , checkFlagDuration c.controllerManagerConfig "--pod-eviction-timeout"
    , checkFlagDuration c.controllerManagerConfig "--route-reconciliation-period"
    , checkDNSServiceIP c ]

/-! ## Top-level orchestrator validator (spec sections 4.1 and 4.6) -/

/-- Version gating for the declared orchestrator type; a leading `v`
is stripped for Kubernetes versions (spec section 8). -/
def orchestratorVersionGate (o : OrchestratorProfile) (isUpdate : Bool) : Option String :=
  match o.orchestratorType with
  | "Kubernetes" => versionGate kubernetesVersionCatalog (stripLeadingV o.orchestratorVersion) isUpdate
  | "OpenShift" => versionGate openShiftVersionCatalog o.orchestratorVersion isUpdate
  | "DCOS" => versionGate dcosVersionCatalog o.orchestratorVersion isUpdate
  | "Swarm" => none
  | "SwarmMode" => none
  | t => some ("OrchestratorProfile has unknown orchestrator: " ++ t)

/-- Modelled from the spec (`OrchestratorProfile.Validate`, absent
from the sources at hand): the Version Gate runs for the declared
type, then only the orchestrator-specific config block matching the
declared type may be populated.  For the Kubernetes and DCOS blocks
"populated" means present and different from the empty block (the
repository's tests accept an empty `DcosConfig` under type
Kubernetes); for the OpenShift block mere presence is rejected (the
repository's tests reject an empty `OpenShiftConfig` under type
Kubernetes). -/
def orchestratorProfileValidate (o : OrchestratorProfile) (isUpdate : Bool) : Option String :=
  firstErr
    [ orchestratorVersionGate o isUpdate
    , if o.orchestratorType != "Kubernetes" &&
         o.kubernetesConfig.any (fun c => c != ({} : KubernetesConfig)) then
        some "KubernetesConfig can be specified only when OrchestratorType is Kubernetes"
      else none
    , if o.orchestratorType != "DCOS" &&
         o.dcosConfig.any (fun c => c != ({} : DcosConfig)) then
        some "DcosConfig can be specified only when OrchestratorType is DCOS"
      else none
    , if o.orchestratorType != "OpenShift" && o.openShiftConfig.isSome then
        some "OpenShiftConfig can be specified only when OrchestratorType is OpenShift"
      else none ]

/-! ## Compatibility Matrix Validators (spec section 4.4) -/

/-- Modelled from the spec: the fixed enumerated set of network policy
values (empty meaning unspecified). -/
def NetworkPolicyValues : List String :=
  ["", "none", "azure", "calico", "cilium"]

/-- Modelled from the spec: the fixed enumerated set of network plugin
values (empty meaning unspecified). -/
def NetworkPluginValues : List String :=
  ["", "kubenet", "azure", "flannel", "cilium"]

/-- Modelled from the spec: the fixed enumerated set of container
runtime values (empty meaning unspecified). -/
def ContainerRuntimeValues : List String :=
  ["", "docker", "clear-containers"]

/-- Modelled from the spec: the authoritative allow-list of
`(networkPlugin, networkPolicy)` pairs — "the allow-list is the
authoritative source, not a derivable rule".  A plugin alone, a policy
alone, and the one composable pair `(kubenet, calico)` are allowed;
the pairs the repository's tests reject are all outside this list. -/
def networkPluginPlusPolicyAllowed : List (String × String) :=
  [ ("", "")
  , ("azure", "")
  , ("kubenet", "")
  , ("flannel", "")
  , ("cilium", "")
  , ("kubenet", "calico")
  , ("", "none")
  , ("", "azure")
  , ("", "calico")
  , ("", "cilium") ]

/-- Whether any agent pool of the cluster description runs Windows. -/
def hasWindows (p : Properties) : Bool :=
  p.agentPoolProfiles.any (fun a => a.osType == "Windows")

/-- The Kubernetes config block the matrix validators read (an absent
block reads as the empty one, as a nil pointer's fields read as zero
values after the reference system's defaulting). -/
def kubeConfigOf (p : Properties) : KubernetesConfig :=
  p.orchestratorProfile.kubernetesConfig.getD {}

/-- Modelled from the spec: network-policy validity plus the
OS-dependent exclusion — the Linux-only policies `calico` and `cilium`
are rejected when any agent pool runs Windows. -/
def validateNetworkPolicy (p : Properties) : Option String :=
  let policy := (kubeConfigOf p).networkPolicy
  if !NetworkPolicyValues.any (fun v => v == policy) then
    some ("unknown networkPolicy '" ++ policy ++ "' specified")
  else if (policy == "calico" || policy == "cilium") && hasWindows p then
    some ("networkPolicy '" ++ policy ++ "' is not supporting windows agents")
  else none

/-- Modelled from the spec: network-plugin value validity. -/
def validateNetworkPlugin (p : Properties) : Option String :=
  let plugin := (kubeConfigOf p).networkPlugin
  if !NetworkPluginValues.any (fun v => v == plugin) then
    some ("unknown networkPlugin '" ++ plugin ++ "' specified")
  else none

/-- Modelled from the spec: only pairs on the fixed allow-list are
accepted, even when each component is individually valid. -/
def validateNetworkPluginPlusPolicy (p : Properties) : Option String :=
  let plugin := (kubeConfigOf p).networkPlugin
  let policy := (kubeConfigOf p).networkPolicy
  if networkPluginPlusPolicyAllowed.any (fun c => c.1 == plugin && c.2 == policy) then
    none
  else
    some ("networkPolicy '" ++ policy ++ "' is not supported with networkPlugin '" ++ plugin ++ "'")

/-- Modelled from the spec: container-runtime value validity plus the
OS-dependent exclusion of the Linux-only sandboxed runtime
`clear-containers` on Windows pools. -/
def validateContainerRuntime (p : Properties) : Option String :=
  let runtime := (kubeConfigOf p).containerRuntime
  if !ContainerRuntimeValues.any (fun v => v == runtime) then
    some ("unknown containerRuntime '" ++ runtime ++ "' specified")
  else if runtime == "clear-containers" && hasWindows p then
    some "containerRuntime 'clear-containers' is not supporting windows agents"
  else none

/-! ## Identity Validators (spec section 4.5) -/

/-- Modelled from the spec: the Key Vault resource-ID shape
`/subscriptions/SUB_ID/resourceGroups/RG_NAME/providers/Microsoft.KeyVault/vaults/KV_NAME`
with nonempty identifier segments. -/
def validKeyVaultID (s : String) : Bool :=
  match splitOnChar '/' s.data with
  | [lead, subsLit, subID, rgLit, rgName, provLit, kvLit, vaultsLit, vaultName] =>
    lead.isEmpty && subsLit == "subscriptions".data && !subID.isEmpty &&
    rgLit == "resourceGroups".data && !rgName.isEmpty &&
    provLit == "providers".data && kvLit == "Microsoft.KeyVault".data &&
    vaultsLit == "vaults".data && !vaultName.isEmpty
  | _ => false

/-- Modelled from the spec (section 4.5): exactly one of the inline
secret or the Key Vault reference must be set, and the reference's
vault ID must match the resource-ID shape, with the fixed verbatim
message on failure. -/
def servicePrincipalProfileValidate (s : ServicePrincipalProfile) : Option String :=
  if s.secret != "" && s.keyvaultSecretRef.isSome then
    some "service principal client secret and keyvault secret reference cannot both be specified"
  else if s.secret == "" && s.keyvaultSecretRef.isNone then
    some "either the service principal client secret or keyvault secret reference must be specified"
  else
    match s.keyvaultSecretRef with
    | some r =>
      if validKeyVaultID r.vaultID then none
      else some "service principal client keyvault secret reference is of incorrect format"
    | none => none

/-! ## Label key/value validators (spec section 4.2) -/

/-- A character allowed in the body of a label name or value:
alphanumerics, dash, underscore, dot. -/
def isLabelBodyChar (c : Char) : Bool :=
  c.isAlpha || c.isDigit || c == '-' || c == '_' || c == '.'

/-- The 1–63-character label-name rule: starts and ends with an
alphanumeric, interior characters from the label body set. -/
def isValidLabelName (cs : List Char) : Bool :=
  match cs with
  | [] => false
  | first :: _ =>
    cs.length ≤ 63 && (first.isAlpha || first.isDigit) &&
    (cs.getLast?.any fun last => last.isAlpha || last.isDigit) &&
    cs.all isLabelBodyChar

/-- A character allowed in a label-key DNS-subdomain-like leading
token: lowercase alphanumerics, dash, dot. -/
def isSubdomainChar (c : Char) : Bool :=
  c.isLower || c.isDigit || c == '-' || c == '.'

/-- The leading token of a `token/name` label key: nonempty, at most
253 DNS-subdomain-like characters, no leading or trailing dot. -/
def isValidLabelKeyLeadingToken (cs : List Char) : Bool :=
  match cs with
  | [] => false
  | first :: _ =>
    cs.length ≤ 253 && cs.all isSubdomainChar &&
    first != '.' && (cs.getLast?.any fun last => last != '.')

/-- Modelled from the spec: a label value is empty or obeys the
1–63-character label-name rule. -/
def validateKubernetesLabelValue (v : String) : Option String :=
  if v == "" || isValidLabelName v.data then none
  else some ("Label value '" ++ v ++ "' is invalid")

/-- Modelled from the spec: a label key is a mandatory name obeying
the label-name rule, optionally preceded by a single
DNS-subdomain-like token and a slash. -/
def validateKubernetesLabelKey (k : String) : Option String :=
  let ok :=
    match splitOnChar '/' k.data with
    | [name] => isValidLabelName name
    | [tok, name] => isValidLabelKeyLeadingToken tok && isValidLabelName name
    | _ => false
  if ok then none else some ("Label key '" ++ k ++ "' is invalid")

/-! ## Image reference pairing (spec section 6) -/

/-- Modelled from the spec: `imageName` and `imageResourceGroup` must
be specified together, with the verbatim messages naming the missing
field. -/
def validateImageNameAndGroup (name resourceGroup : String) : Option String :=
  if name == "" && resourceGroup != "" then
    some "imageName needs to be specified when imageResourceGroup is provided"
  else if name != "" && resourceGroup == "" then
    some "imageResourceGroup needs to be specified when imageName is provided"
  else none

/-! ## Top-Level Properties Validator (spec section 4.6) -/

/-- The OpenShift single-storage-profile message (part of the
observable contract, spec section 6). -/
def openShiftManagedDisksMsg : String :=
  "OpenShift orchestrator supports only ManagedDisks"

/-- Modelled from the spec (section 4.6, step 4): under OpenShift the
master pool and every agent pool must use the ManagedDisks storage
profile; a mismatch is rejected with the fixed message. -/
def validateStorageProfilesOpenShift (p : Properties) : Option String :=
  if p.orchestratorProfile.orchestratorType == "OpenShift" then
    firstErr
      ((match p.masterProfile with
        | some m =>
          [if m.storageProfile != "ManagedDisks" then some openShiftManagedDisksMsg else none]
        | none => []) ++
       p.agentPoolProfiles.map fun a =>
         if a.storageProfile != "ManagedDisks" then some openShiftManagedDisksMsg else none)
  else none

/-- Modelled from the spec (`Properties.Validate`, absent from the
sources at hand): single pass over the cluster description in the
spec's order — orchestrator profile (config-block structure and
version gate), the OpenShift storage-profile uniformity rule, then for
Kubernetes the configuration validator, the compatibility matrix
validators, and the identity validator; the first failure is
surfaced. -/
def propertiesValidate (p : Properties) (isUpdate : Bool) : Option String :=
  firstErr
    [ orchestratorProfileValidate p.orchestratorProfile isUpdate
    , validateStorageProfilesOpenShift p
    , if p.orchestratorProfile.orchestratorType == "Kubernetes" then
        firstErr
          [ kubernetesConfigValidate (kubeConfigOf p)
          , validateNetworkPolicy p
          , validateNetworkPlugin p
          , validateNetworkPluginPlusPolicy p
          , validateContainerRuntime p
          , match p.servicePrincipalProfile with
            | some sp => servicePrincipalProfileValidate sp
            | none => some "ServicePrincipalProfile must be specified with Kubernetes orchestrator"
          ]
      else none ]

/-! ## Concrete cluster descriptions exercised by the repository -/

/-- A Kubernetes cluster description with the given network plugin and
policy and the given agent pools (the shape the matrix validators are
exercised with). -/
def mkNetworkProperties (plugin policy : String) (pools : List AgentPoolProfile) :
    Properties :=
  { orchestratorProfile :=
      { orchestratorType := "Kubernetes",
        kubernetesConfig := some { networkPlugin := plugin, networkPolicy := policy } },
    agentPoolProfiles := pools }

/-- A Kubernetes cluster description with the given container runtime
and agent pools. -/
def mkRuntimeProperties (runtime : String) (pools : List AgentPoolProfile) : Properties :=
  { orchestratorProfile :=
      { orchestratorType := "Kubernetes",
        kubernetesConfig := some { containerRuntime := runtime } },
    agentPoolProfiles := pools }

/-- An agent pool running Windows. -/
def windowsAgentPool : AgentPoolProfile := { osType := "Windows" }

/-- The valid OpenShift cluster description of the repository's
`TestOpenshiftValidate` (uniform ManagedDisks storage). -/
def openShiftValidProperties : Properties :=
  { azProfile := some
      { location := "eastus", resourceGroup := "group",
        subscriptionID := "sub_id", tenantID := "tenant_id" },
    orchestratorProfile :=
      { orchestratorType := "OpenShift",
        openShiftConfig := some { clusterUsername := "user", clusterPassword := "pass" } },
    masterProfile := some
      { count := 1, dnsPrefix := "mydns", vmSize := "Standard_D4s_v3",
        storageProfile := "ManagedDisks" },
    agentPoolProfiles :=
      [{ name := "compute", count := 1, vmSize := "Standard_D4s_v3",
         storageProfile := "ManagedDisks", availabilityProfile := "AvailabilitySet" }],
    linuxProfile := some
      { adminUsername := "admin", publicKeys := [{ keyData := "ssh-key" }] } }

/-- The same description with the master pool on the StorageAccount
storage profile instead (and no agent pools). -/
def openShiftMasterStorageAccount : Properties :=
  { openShiftValidProperties with
    masterProfile := some
      { count := 1, dnsPrefix := "mydns", vmSize := "Standard_D4s_v3",
        storageProfile := "StorageAccount" },
    agentPoolProfiles := [] }

/-- The same description with the agent pool on the StorageAccount
storage profile instead. -/
def openShiftAgentStorageAccount : Properties :=
  { openShiftValidProperties with
    agentPoolProfiles :=
      [{ name := "compute", count := 1, vmSize := "Standard_D4s_v3",
         storageProfile := "StorageAccount", availabilityProfile := "AvailabilitySet" }] }

end Vlabs


namespace Vlabs

/-! ## Claims -/

/-- C1: Version gating is asymmetric in the `isUpdate` flag: every
version in the externally supplied supported-version list passes
`OrchestratorProfile.Validate` with `isUpdate = false`, while the
deprecated patch version `1.7.3` — previously known to the
orchestrator but no longer offered for new clusters — fails with
`isUpdate = false` and passes with `isUpdate = true`. -/
theorem C1_version_gate_asymmetric :
    (getAllSupportedKubernetesVersions.all fun v =>
      orchestratorProfileValidate
        { orchestratorType := "Kubernetes", orchestratorVersion := v } false == none) = true
    ∧ (orchestratorProfileValidate
        { orchestratorType := "Kubernetes", orchestratorVersion := "1.7.3" } false).isSome = true
    ∧ orchestratorProfileValidate
        { orchestratorType := "Kubernetes", orchestratorVersion := "1.7.3" } true = none := by
  decide

/-- C2 counterexample: an *empty* `OpenShiftConfig` block attached to
a Kubernetes-typed orchestrator profile does trigger the structural
mismatch error, refuting the claim that an empty orchestrator-specific
config block never triggers it. -/
theorem C2_empty_openshift_block_rejected :
    orchestratorProfileValidate
      { orchestratorType := "Kubernetes", orchestratorVersion := "v1.9.0",
        openShiftConfig := some {} } false
    = some "OpenShiftConfig can be specified only when OrchestratorType is OpenShift" := by
  decide

/-- C2 (amended): `OrchestratorProfile.Validate` errors whenever a
field of a `KubernetesConfig` or `DcosConfig` block not matching the
declared type is set, and whenever an `OpenShiftConfig` block — even
empty — is present under a non-OpenShift type; an empty
`KubernetesConfig` or `DcosConfig` block never triggers the structural
error. -/
theorem C2_config_block_matching :
    (orchestratorProfileValidate
      { orchestratorType := "DCOS",
        kubernetesConfig := some { clusterSubnet := "10.0.0.0/16" } } false).isSome = true
    ∧ orchestratorProfileValidate
        { orchestratorType := "DCOS", kubernetesConfig := some {} } false = none
    ∧ orchestratorProfileValidate
        { orchestratorType := "Kubernetes", dcosConfig := some {} } false = none
    ∧ (orchestratorProfileValidate
        { orchestratorType := "Kubernetes",
          dcosConfig := some { dcosWindowsBootstrapURL := "http://www.microsoft.com" } }
        false).isSome = true
    ∧ (orchestratorProfileValidate
        { orchestratorType := "Kubernetes",
          dcosConfig := some { dcosBootstrapURL := "http://www.microsoft.com",
                               dcosWindowsBootstrapURL := "http://www.microsoft.com" } }
        false).isSome = true
    ∧ (orchestratorProfileValidate
        { orchestratorType := "Kubernetes", orchestratorVersion := "v1.9.0",
          openShiftConfig := some {} } false).isSome = true := by
  decide

/-- C3: `KubernetesConfig.Validate` requires `DNSServiceIP` and
`ServiceCidr` both-or-neither, each must parse, the IP must lie in the
CIDR, and the first IP and the broadcast address of the range are
rejected: `172.99.255.10` inside `172.99.0.1/16` passes, while
`172.99.0.1` (first IP) and `172.99.255.255` (broadcast) against the
same CIDR, an IP outside the CIDR, a malformed IP, a malformed CIDR,
and either field alone, all fail. -/
theorem C3_dns_service_ip_placement :
    kubernetesConfigValidate
      { dnsServiceIP := "172.99.255.10", serviceCidr := "172.99.0.1/16" } = none
    ∧ (kubernetesConfigValidate
        { dnsServiceIP := "172.99.0.1", serviceCidr := "172.99.0.1/16" }).isSome = true
    ∧ (kubernetesConfigValidate
        { dnsServiceIP := "172.99.255.255", serviceCidr := "172.99.0.1/16" }).isSome = true
    ∧ (kubernetesConfigValidate
        { dnsServiceIP := "192.168.1.10", serviceCidr := "192.168.0.0/24" }).isSome = true
    ∧ (kubernetesConfigValidate
        { dnsServiceIP := "invalid", serviceCidr := "192.168.0.0/24" }).isSome = true
    ∧ (kubernetesConfigValidate
        { dnsServiceIP := "192.168.1.10", serviceCidr := "192.168.0.0/not-a-len" }).isSome = true
    ∧ (kubernetesConfigValidate { dnsServiceIP := "192.168.0.10" }).isSome = true
    ∧ (kubernetesConfigValidate { serviceCidr := "192.168.0.10/24" }).isSome = true
    ∧ kubernetesConfigValidate {} = none := by
  decide

end Vlabs

namespace Vlabs

/-- C4 counterexample: grace period `40s` with update frequency `10s`
passes `KubernetesConfig.Validate` although `40s` is smaller than five
times `10s`, so the safety multiple enforced by the validator is not
5. -/
theorem C4_forty_seconds_passes_below_five_times :
    kubernetesConfigValidate
      { kubeletConfig := [("--node-status-update-frequency", "10s")],
        controllerManagerConfig := [("--node-monitor-grace-period", "40s")] } = none
    ∧ parseDuration "40s" = some 40000000000
    ∧ parseDuration "10s" = some 10000000000
    ∧ 40000000000 < 5 * 10000000000 := by
  decide

/-- C4 (amended): when both flags are set and parse as durations, the
grace period must be at least the fixed safety multiple — 4, not 5 —
of the update frequency: with frequency `10s`, grace period `30s` is
an error and `40s` passes; in general, a configuration carrying
exactly these two flags validates precisely when both parse and the
grace period is at least `minKubeletRetries` (4) times the
frequency. -/
theorem C4_grace_period_safety_multiple :
    (∀ f g : String,
      kubernetesConfigValidate
        { kubeletConfig := [("--node-status-update-frequency", f)],
          controllerManagerConfig := [("--node-monitor-grace-period", g)] } = none
      ↔ ∃ df dg, parseDuration f = some df ∧ parseDuration g = some dg ∧
          minKubeletRetries * df ≤ dg)
    ∧ (kubernetesConfigValidate
        { kubeletConfig := [("--node-status-update-frequency", "10s")],
          controllerManagerConfig := [("--node-monitor-grace-period", "30s")] }).isSome = true
    ∧ kubernetesConfigValidate
        { kubeletConfig := [("--node-status-update-frequency", "10s")],
          controllerManagerConfig := [("--node-monitor-grace-period", "40s")] } = none := by
  refine ⟨fun f g => ?_, by decide, by decide⟩
  cases hf : parseDuration f with
  | none =>
    simp [kubernetesConfigValidate, firstErr, checkOptionalCIDR, checkFlagCIDR,
      checkFlagDuration, checkGracePeriod, checkDNSServiceIP, kubernetesMinMaxPods,
      List.lookup, hf]
  | some df =>
    cases hg : parseDuration g with
    | none =>
      simp [kubernetesConfigValidate, firstErr, checkOptionalCIDR, checkFlagCIDR,
        checkFlagDuration, checkGracePeriod, checkDNSServiceIP, kubernetesMinMaxPods,
        List.lookup, hf, hg]
    | some dg =>
      simp [kubernetesConfigValidate, firstErr, checkOptionalCIDR, checkFlagCIDR,
        checkFlagDuration, checkGracePeriod, checkDNSServiceIP, kubernetesMinMaxPods,
        List.lookup, hf, hg]
      split <;> simp [firstErr] <;> omega

end Vlabs

namespace Vlabs

/-- C5: `validateNetworkPluginPlusPolicy` accepts exactly the
`(plugin, policy)` pairs on the fixed allow-list: every listed pair
passes, and the pairs `(azure, calico)`, `(azure, cilium)`,
`(azure, azure)`, `(kubenet, none)`, `(azure, none)` and
`(kubenet, kubenet)` — each component individually a valid plugin or
policy value — are all rejected, as is every pair outside the list. -/
theorem C5_plugin_policy_allow_list :
    (networkPluginPlusPolicyAllowed.all fun cfg =>
      validateNetworkPluginPlusPolicy (mkNetworkProperties cfg.1 cfg.2 []) == none) = true
    ∧ ([("azure", "calico"), ("azure", "cilium"), ("azure", "azure"),
        ("kubenet", "none"), ("azure", "none"), ("kubenet", "kubenet")].all fun cfg =>
        (validateNetworkPluginPlusPolicy (mkNetworkProperties cfg.1 cfg.2 [])).isSome
        && (NetworkPluginValues.contains cfg.1 || NetworkPolicyValues.contains cfg.1)
        && (NetworkPluginValues.contains cfg.2 || NetworkPolicyValues.contains cfg.2)) = true
    ∧ ∀ plugin policy : String,
        validateNetworkPluginPlusPolicy (mkNetworkProperties plugin policy []) = none
        ↔ (plugin, policy) ∈ networkPluginPlusPolicyAllowed := by
  refine ⟨by decide, by decide, fun plugin policy => ?_⟩
  simp [validateNetworkPluginPlusPolicy, mkNetworkProperties, kubeConfigOf,
    List.any_eq_true, Prod.ext_iff]

/-- C6: service-principal validation requires exactly one of `Secret`
or `KeyvaultSecretRef`: an inline secret alone passes; a well-formed
Key Vault reference alone passes, with or without `SecretVersion`;
both set fails; neither set fails; and a reference whose vault ID does
not match the Key Vault resource-ID shape fails with exactly the
message "service principal client keyvault secret reference is of
incorrect format". -/
theorem C6_service_principal_exclusivity :
    servicePrincipalProfileValidate
      { clientID := "clientID", secret := "clientSecret" } = none
    ∧ servicePrincipalProfileValidate
        { clientID := "clientID",
          keyvaultSecretRef := some
            { vaultID := "/subscriptions/SUB-ID/resourceGroups/RG-NAME/providers/Microsoft.KeyVault/vaults/KV-NAME",
              secretName := "secret-name", secretVersion := "version" } } = none
    ∧ servicePrincipalProfileValidate
        { clientID := "clientID",
          keyvaultSecretRef := some
            { vaultID := "/subscriptions/SUB-ID/resourceGroups/RG-NAME/providers/Microsoft.KeyVault/vaults/KV-NAME",
              secretName := "secret-name" } } = none
    ∧ (servicePrincipalProfileValidate
        { clientID := "clientID", secret := "secret",
          keyvaultSecretRef := some
            { vaultID := "/subscriptions/SUB-ID/resourceGroups/RG-NAME/providers/Microsoft.KeyVault/vaults/KV-NAME",
              secretName := "secret-name" } }).isSome = true
    ∧ (servicePrincipalProfileValidate { clientID := "clientID" }).isSome = true
    ∧ servicePrincipalProfileValidate
        { clientID := "clientID",
          keyvaultSecretRef := some { vaultID := "randomID", secretName := "secret-name" } }
      = some "service principal client keyvault secret reference is of incorrect format" := by
  decide

/-- C7: with a Windows agent pool present, validation rejects the
network policies `calico` and `cilium` and the container runtime
`clear-containers`, though each is accepted without Windows pools
(being members of the fixed value sets, all of which pass their
individual validity checks); the out-of-set value `not-existing` fails
the policy, plugin and runtime checks alike. -/
theorem C7_windows_exclusions_and_value_sets :
    (NetworkPolicyValues.all fun pol =>
      validateNetworkPolicy (mkNetworkProperties "" pol []) == none) = true
    ∧ (validateNetworkPolicy (mkNetworkProperties "" "not-existing" [])).isSome = true
    ∧ (validateNetworkPolicy
        (mkNetworkProperties "" "calico" [windowsAgentPool])).isSome = true
    ∧ (validateNetworkPolicy
        (mkNetworkProperties "" "cilium" [windowsAgentPool])).isSome = true
    ∧ (NetworkPluginValues.all fun plugin =>
        validateNetworkPlugin (mkNetworkProperties plugin "" []) == none) = true
    ∧ (validateNetworkPlugin (mkNetworkProperties "not-existing" "" [])).isSome = true
    ∧ (ContainerRuntimeValues.all fun runtime =>
        validateContainerRuntime (mkRuntimeProperties runtime []) == none) = true
    ∧ (validateContainerRuntime (mkRuntimeProperties "not-existing" [])).isSome = true
    ∧ (validateContainerRuntime
        (mkRuntimeProperties "clear-containers" [windowsAgentPool])).isSome = true := by
  decide

/-- C8: under the OpenShift orchestrator type, `Properties.Validate`
requires the master profile and every agent pool profile to use the
ManagedDisks storage profile: the uniform description passes, and a
StorageAccount master or agent pool is rejected with exactly the
message "OpenShift orchestrator supports only ManagedDisks". -/
theorem C8_openshift_managed_disks_only :
    propertiesValidate openShiftValidProperties false = none
    ∧ propertiesValidate openShiftMasterStorageAccount false
      = some "OpenShift orchestrator supports only ManagedDisks"
    ∧ propertiesValidate openShiftAgentStorageAccount false
      = some "OpenShift orchestrator supports only ManagedDisks" := by
  decide

/-- C9: `validateKubernetesLabelValue` accepts the empty string and
1–63-character alphanumeric-bounded tokens over alphanumerics, dash,
underscore and dot, rejecting `a$$b`, `-abc`, `not.valid.`, a
64-character token and strings with spaces; `validateKubernetesLabelKey`
accepts an optional DNS-subdomain-like leading token of at most 253
characters followed by a slash and a mandatory name under the same
1–63 rule, and rejects the empty string, multiple slashes, a leading
dot, spaces, a missing name or leading token around the slash, and
over-length leading tokens. -/
theorem C9_label_key_value_rules :
    (["", "a", "a1", "this--valid--label--is--exactly--sixty--three--characters--long",
      "123456", "my-label_valid.com"].all fun v =>
        validateKubernetesLabelValue v == none) = true
    ∧ (["a$$b", "-abc", "not.valid.",
        "This____long____label___is______sixty______four_____chararacters",
        "Label with spaces"].all fun v =>
          (validateKubernetesLabelValue v).isSome) = true
    ∧ "This____long____label___is______sixty______four_____chararacters".length = 64
    ∧ (["a", "a1", "this--valid--label--is--exactly--sixty--three--characters--long",
        "123456", "my-label_valid.com", "foo.bar/name", "1.2321.324/key_name.foo",
        "valid.long.253.characters.label.key.prefix.12345678910.fooooooooooooooooooooooooooooooooooooooooooooooooooooooooooooooooooooooooooooooooooooooooooooooooooooooooooooooooooooooooooooooooooooooooooooooooooooooooooooooooooooooooooooooooooooooooooooooooooooo/my-key"].all
        fun k => validateKubernetesLabelKey k == none) = true
    ∧ (["", "a/b/c", ".startswithdot", "spaces in key", "foo/", "/name", "$.$/com",
        "too-long-254-characters-key-prefix-------------------------------------------------------------------------------------------------------------------------------------------------------------------------------------------------------------------------123/name",
        "wrong-slash\\foo"].all fun k =>
          (validateKubernetesLabelKey k).isSome) = true := by
  decide

/-- C10: `validateImageNameAndGroup` requires the image name and the
image resource group together: both set passes, and either alone fails
with exactly the message naming the missing field. -/
theorem C10_image_name_and_group_pairing :
    validateImageNameAndGroup "rhel9000" "club" = none
    ∧ validateImageNameAndGroup "" "club"
      = some "imageName needs to be specified when imageResourceGroup is provided"
    ∧ validateImageNameAndGroup "rhel9000" ""
      = some "imageResourceGroup needs to be specified when imageName is provided" := by
  decide

end Vlabs
